import Mathlib

/-!
Verification of the CLAHE N-API binding
(src/packages/bytebot-cv/opencv4nodejs/CLAHE.cc).

The binding is pure argument marshaling: it normalises dynamically typed
call arguments (numbers, arrays, plain objects) into a clip limit and a
tile-grid size, forwards them to the external cv::CLAHE object, and wraps
results back.  We embed the marshaling logic shallowly:

* JS numbers are modelled as `JNum`: an exact rational (`fin`) or `nan`.
  C++ doubles in the binding only ever hold values converted from JS
  numbers, so exact rationals are faithful for every finite input; NaN is
  tracked explicitly because `ToNumber(undefined) = NaN` reaches the
  `static_cast<int>` in `extractSize`.
* `static_cast<int>` applied to NaN is implementation-defined in C++; the
  environment record `CEnv` carries the value `nanInt` that the platform
  produces (x86-64 cvttsd2si yields INT_MIN, AArch64 fcvtzs yields 0),
  and theorems quantify over it.
* `Nan::To<double>(v).FromMaybe(d)`: `v8::Value::NumberValue` returns an
  empty Maybe only when ToNumber throws (Symbols, throwing valueOf); no
  such values exist in our `JSValue` model, so the conversion always
  succeeds and the `FromMaybe` default is never consulted.  In particular
  a missing property reads as `undefined` and converts to NaN, not to the
  default.
* V8 type predicates: arrays are objects (`IsObject` is true for both
  `arr` and `obj`); numbers and strings are primitives.
-/

/-- A JS number as seen by the binding: an exact rational or NaN. -/
inductive JNum where
  | fin (x : ℚ)
  | nan
deriving DecidableEq

/-- JS values of the shapes the binding inspects: undefined, null, numbers,
strings, arrays, and plain objects (an association list of named fields). -/
inductive JSValue where
  | undefined
  | null
  | num (v : JNum)
  | str (s : String)
  | arr (elems : List JSValue)
  | obj (fields : List (String × JSValue))

/-- V8 `IsObject`: true for plain objects and for arrays. -/
def isObjectV : JSValue → Bool
  | .obj _ => true
  | .arr _ => true
  | _ => false

/-- V8 `IsArray`. -/
def isArrayV : JSValue → Bool
  | .arr _ => true
  | _ => false

/-- V8 `IsNumber` (NaN is a number). -/
def isNumberV : JSValue → Bool
  | .num _ => true
  | _ => false

/-- V8 `IsUndefined` or `IsNull`. -/
def isUndefinedOrNull : JSValue → Bool
  | .undefined => true
  | .null => true
  | _ => false

/-- ECMAScript ToNumber on the values this development feeds to it:
numbers convert to themselves, `null` to 0, `undefined` to NaN.  Strings,
arrays and plain objects are mapped to NaN, which is the generic outcome
(non-numeric strings; objects via the string "[object Object]"); the
special cases (numeric strings, arrays of zero or one numeric element)
never occur as conversion inputs in this development. -/
def toNumber : JSValue → JNum
  | .num v => v
  | .null => .fin 0
  | .undefined => .nan
  | .str _ => .nan
  | .arr _ => .nan
  | .obj _ => .nan

/-- Property lookup on an object's field list (keys are unique, as in V8). -/
def lookupField : List (String × JSValue) → String → Option JSValue
  | [], _ => none
  | (k, v) :: rest, key => if k = key then some v else lookupField rest key

/-- `Nan::Has`: does the object expose the named property. -/
def hasField (fields : List (String × JSValue)) (key : String) : Bool :=
  (lookupField fields key).isSome

/-- `Nan::Get`: a missing property reads as `undefined`. -/
def getField (fields : List (String × JSValue)) (key : String) : JSValue :=
  (lookupField fields key).getD .undefined

/-- C++ `std::round`: round half away from zero. -/
def cRound (x : ℚ) : Int :=
  if 0 ≤ x then ⌊x + 1/2⌋ else -⌊-x + 1/2⌋

/-- Platform parameters of the embedding: `nanInt` is the
implementation-defined result of `static_cast<int>` applied to NaN
(INT_MIN on x86-64, 0 on AArch64). -/
structure CEnv where
  nanInt : Int
deriving DecidableEq

/-- The x86-64 instantiation: cvttsd2si turns NaN into INT_MIN. -/
def envX86 : CEnv := ⟨-2147483648⟩

/-- `static_cast<int>(std::round(x))` on a JS number: round a finite
value half away from zero; NaN produces the platform's `nanInt`. -/
def roundToInt (env : CEnv) : JNum → Int
  | .fin x => cRound x
  | .nan => env.nanInt

/-- CLAHE.cc lines 17-21: clamp both components of a size to at least 1. -/
def sanitizeSize (s : Int × Int) : Int × Int :=
  (max 1 s.1, max 1 s.2)

mutual

/-- CLAHE.cc lines 23-61, `extractSize`: resolve a tile-grid size from an
array of at least two elements, an object with a "width" or "height"
field, an object with a nested "tileGridSize" field (recursively), or a
bare number (square grid); any other shape is not recognised (`none`).
The second argument is the in/out `cv::Size& out` of the C++ code; it is
threaded through the recursion (its components back the `FromMaybe`
defaults, which are unreachable in this model, see the module comment). -/
def extractSize (env : CEnv) : JSValue → Int × Int → Option (Int × Int)
  | .arr elems, _out =>
      if elems.length < 2 then none
      else
        some (sanitizeSize
          (roundToInt env (toNumber (elems.getD 0 .undefined)),
           roundToInt env (toNumber (elems.getD 1 .undefined))))
  | .obj fields, out =>
      if hasField fields "width" || hasField fields "height" then
        some (sanitizeSize
          (roundToInt env (toNumber (getField fields "width")),
           roundToInt env (toNumber (getField fields "height"))))
      else if hasField fields "tileGridSize" then
        extractSizeField env fields out
      else none
  | .num x, _out =>
      let side := max 1 (roundToInt env x)
      some (side, side)
  | .undefined, _ => none
  | .null, _ => none
  | .str _, _ => none
termination_by v _ => sizeOf v

/-- The nested "tileGridSize" case of `extractSize`: walk the field list to
the first "tileGridSize" entry (the property `Nan::Has` just found) and
recurse into its value, as `extractSize(Nan::Get(obj, "tileGridSize"), out)`
does. -/
def extractSizeField (env : CEnv) :
    List (String × JSValue) → Int × Int → Option (Int × Int)
  | [], _ => none
  | (k, v) :: rest, out =>
      if k = "tileGridSize" then extractSize env v out
      else extractSizeField env rest out
termination_by fields _ => sizeOf fields

end

/-- CLAHE.cc lines 63-71, `parseClipLimit`: undefined/null keep the
current clip limit, a number replaces it, anything else fails. -/
def parseClipLimit (v : JSValue) (cur : JNum) : Option JNum :=
  match v with
  | .undefined => some cur
  | .null => some cur
  | .num x => some x
  | _ => none

/-- Errors surfaced by the binding: `argError` is a `tryCatch.throwError`
with a fixed message (the spec's ArgumentError); `converterError` stands
for an error raised inside an external value converter (`FF::DoubleConverter`,
`Mat::Converter`) and rethrown unchanged (the spec's ImageConversionError
kind); its own message lives outside this file. -/
inductive CErr where
  | argError (msg : String)
  | converterError
deriving DecidableEq

/-- The observable configuration of the wrapped cv::CLAHE instance: the
clip limit and tile-grid size last handed to it.  The stored clip limit is
a plain rational: `std::max(0.0, x)` evaluates to `0.0` when `x` is NaN
(the comparison `0.0 < NaN` is false), so NaN never reaches the store. -/
structure CLAHEState where
  clipLimit : ℚ
  tilesGridSize : Int × Int
deriving DecidableEq

/-- A value a method hands back through `GetReturnValue().Set(...)`:
the receiver (`info.This()` / `info.Holder()`), a number, or a size pair. -/
inductive RetVal where
  | receiver
  | numVal (x : ℚ)
  | sizeVal (s : Int × Int)
deriving DecidableEq

/-- CLAHE.cc line 116: `std::max(0.0, clipLimit)`.  `std::max(a, b)` is
`(a < b) ? b : a`, so a NaN clip limit is replaced by 0. -/
def cmax0 : JNum → ℚ
  | .fin x => max 0 x
  | .nan => 0

/-- CLAHE.cc lines 104-106: the optional "clipLimit" field of the
configuration-object constructor form (default 40). -/
def ctorClip (fields : List (String × JSValue)) : JNum :=
  if hasField fields "clipLimit" then toNumber (getField fields "clipLimit")
  else .fin 40

/-- The field list of a plain object (only consulted under the guard
`IsObject && !IsArray && !IsNumber`, which only `obj` satisfies). -/
def objFieldsOf : JSValue → List (String × JSValue)
  | .obj fields => fields
  | _ => []

/-- CLAHE.cc lines 99-110: resolve clip limit and tiles from the first
constructor argument (or defaults when there is none).  `none` marks the
"Invalid arguments for CLAHE constructor" outcome.  A plain configuration
object contributes its optional "clipLimit" field and its size if one
resolves (an unresolvable size silently keeps the default).  Otherwise the
argument must satisfy `parseClipLimit` or, failing that, `extractSize`;
note the C++ short-circuit: when `parseClipLimit` succeeds (number, null
or undefined), `extractSize` is never consulted and the grid keeps its
default. -/
def resolveFirstArg (env : CEnv) (args : List JSValue) :
    Option (JNum × (Int × Int)) :=
  if args.length > 0 then
    let a0 := args.getD 0 .undefined
    if isObjectV a0 && !isArrayV a0 && !isNumberV a0 then
      some (ctorClip (objFieldsOf a0), (extractSize env a0 (8, 8)).getD (8, 8))
    else
      match parseClipLimit a0 (.fin 40) with
      | some c => some (c, (8, 8))
      | none =>
        match extractSize env a0 (8, 8) with
        | some t => some (.fin 40, t)
        | none => none
  else some (.fin 40, (8, 8))

namespace CLAHE

/-- CLAHE.cc lines 95-123, `CLAHE::New`: resolve the two configuration
values from up to two arguments, clamp them (clip limit to ≥ 0, grid
components to ≥ 1), and construct the wrapped instance; a first argument
of unrecognised shape raises "Invalid arguments for CLAHE constructor",
a second argument that does not resolve as a size raises "Unable to parse
tileGridSize". -/
def New (env : CEnv) (args : List JSValue) : Except CErr CLAHEState :=
  match resolveFirstArg env args with
  | none => .error (.argError "Invalid arguments for CLAHE constructor")
  | some (clip, tiles) =>
    if args.length > 1 then
      match extractSize env (args.getD 1 .undefined) tiles with
      | some tiles2 => .ok ⟨cmax0 clip, sanitizeSize tiles2⟩
      | none => .error (.argError "Unable to parse tileGridSize")
    else .ok ⟨cmax0 clip, sanitizeSize tiles⟩

/-- CLAHE.cc lines 153-164, `CLAHE::SetClipLimit`: convert the argument
through the external double converter (`dconv`, kept abstract: any
converter semantics is covered), rethrow its error unchanged, otherwise
store `std::max(0.0, x)` and return the receiver. -/
def SetClipLimit (dconv : JSValue → Except CErr JNum) (s : CLAHEState)
    (v : JSValue) : CLAHEState × Except CErr RetVal :=
  match dconv v with
  | .error e => (s, .error e)
  | .ok x => ({ s with clipLimit := cmax0 x }, .ok .receiver)

/-- CLAHE.cc lines 166-169, `CLAHE::GetClipLimit`. -/
def GetClipLimit (s : CLAHEState) : CLAHEState × Except CErr RetVal :=
  (s, .ok (.numVal s.clipLimit))

/-- CLAHE.cc lines 171-182, `CLAHE::SetTilesGridSize`: resolve the first
argument as a size starting from the sanitized default (8,8); failure
raises "Unable to parse tilesGridSize" (note the extra "s", unlike the
constructor's message) and leaves the configuration alone; success stores
the sanitized size and returns the receiver. -/
def SetTilesGridSize (env : CEnv) (s : CLAHEState) (v : JSValue) :
    CLAHEState × Except CErr RetVal :=
  match extractSize env v (sanitizeSize (8, 8)) with
  | none => (s, .error (.argError "Unable to parse tilesGridSize"))
  | some t => ({ s with tilesGridSize := sanitizeSize t }, .ok .receiver)

/-- CLAHE.cc lines 184-188, `CLAHE::GetTilesGridSize`. -/
def GetTilesGridSize (s : CLAHEState) : CLAHEState × Except CErr RetVal :=
  (s, .ok (.sizeVal s.tilesGridSize))

/-- CLAHE.cc lines 190-194, `CLAHE::CollectGarbage`: forward to the
library's cache-release hook (no configuration change) and return the
receiver. -/
def CollectGarbage (s : CLAHEState) : CLAHEState × Except CErr RetVal :=
  (s, .ok .receiver)

/-- The result of `CLAHE::Apply`: the wrapped output image, and whether it
was freshly allocated (no destination argument) rather than written into a
caller-supplied destination. -/
structure ApplyResult (α : Type) where
  output : α
  fresh : Bool
deriving DecidableEq

/-- CLAHE.cc lines 125-151, `CLAHE::Apply`: convert argument 0 through the
external image converter (`conv`, kept abstract), rethrowing its error;
a second argument counts as a destination only when it is present and
neither undefined nor null, in which case it is also converted (errors
rethrown) and the equalized image (`run`, the external cv::CLAHE::apply,
kept abstract) is written into it; otherwise a fresh output buffer is
allocated.  Either way the output image is wrapped and returned. -/
def Apply {α : Type} (conv : JSValue → Except CErr α) (run : α → α)
    (args : List JSValue) : Except CErr (ApplyResult α) :=
  match conv (args.getD 0 .undefined) with
  | .error e => .error e
  | .ok src =>
    if args.length > 1 && !isUndefinedOrNull (args.getD 1 .undefined) then
      match conv (args.getD 1 .undefined) with
      | .error e => .error e
      | .ok _dst => .ok ⟨run src, false⟩
    else .ok ⟨run src, true⟩

end CLAHE

theorem cmax0_nonneg (x : JNum) : 0 ≤ cmax0 x := by
  cases x with
  | fin y => exact le_max_left 0 y
  | nan => exact le_refl 0

theorem sanitizeSize_ge (t : Int × Int) :
    1 ≤ (sanitizeSize t).1 ∧ 1 ≤ (sanitizeSize t).2 :=
  ⟨le_max_left 1 t.1, le_max_left 1 t.2⟩

theorem max_one_idem (x : Int) : max 1 (max 1 x) = max 1 x := by
  rw [← max_assoc, max_self]

/-- Claim C1 (amended: the clamp to ≥ 1 applies): for every pair of
positive rationals (w, h) and any in/out default, resolving a size from
the array [w, h], the object with "width"/"height" fields, and the object
with a nested "tileGridSize" array all yield the same result, namely
(max 1 (round w), max 1 (round h)). -/
theorem extractSize_shapes_agree (env : CEnv) (w h : ℚ) (d : Int × Int)
    (_hw : 0 < w) (_hh : 0 < h) :
    extractSize env (.arr [.num (.fin w), .num (.fin h)]) d
        = some (max 1 (cRound w), max 1 (cRound h))
    ∧ extractSize env
        (.obj [("width", .num (.fin w)), ("height", .num (.fin h))]) d
        = some (max 1 (cRound w), max 1 (cRound h))
    ∧ extractSize env
        (.obj [("tileGridSize", .arr [.num (.fin w), .num (.fin h)])]) d
        = some (max 1 (cRound w), max 1 (cRound h)) := by
  refine ⟨?_, ?_, ?_⟩ <;>
    norm_num +decide [extractSize, extractSizeField, hasField, lookupField,
      getField, toNumber, roundToInt, sanitizeSize]

/-- Claim C1 witness: the amended statement applied at (w, h) = (3, 7). -/
theorem extractSize_shapes_agree_witness :
    (0 : ℚ) < 3 ∧ (0 : ℚ) < 7
    ∧ (extractSize envX86 (.arr [.num (.fin 3), .num (.fin 7)]) (8, 8)
          = some (max 1 (cRound 3), max 1 (cRound 7))
       ∧ extractSize envX86
            (.obj [("width", .num (.fin 3)), ("height", .num (.fin 7))]) (8, 8)
          = some (max 1 (cRound 3), max 1 (cRound 7))
       ∧ extractSize envX86
            (.obj [("tileGridSize", .arr [.num (.fin 3), .num (.fin 7)])]) (8, 8)
          = some (max 1 (cRound 3), max 1 (cRound 7))) :=
  ⟨by norm_num, by norm_num,
   extractSize_shapes_agree envX86 3 7 (8, 8) (by norm_num) (by norm_num)⟩

/-- Claim C1 counterexample: at w = h = 1/4 (positive) all three shapes
resolve to (1, 1), but the claimed value (round w, round h) is (0, 0). -/
theorem extractSize_shapes_round_claim_false :
    extractSize envX86 (.arr [.num (.fin (1/4)), .num (.fin (1/4))]) (8, 8)
        = some (1, 1)
    ∧ extractSize envX86
        (.obj [("width", .num (.fin (1/4))), ("height", .num (.fin (1/4)))]) (8, 8)
        = some (1, 1)
    ∧ extractSize envX86
        (.obj [("tileGridSize", .arr [.num (.fin (1/4)), .num (.fin (1/4))])]) (8, 8)
        = some (1, 1)
    ∧ (cRound (1/4), cRound (1/4)) ≠ ((1 : Int), (1 : Int)) := by
  refine ⟨?_, ?_, ?_, ?_⟩ <;>
    norm_num +decide [extractSize, extractSizeField, hasField, lookupField,
      getField, toNumber, roundToInt, sanitizeSize, cRound]

/-- Claim C2 (amended: the grid from a second-position number is clamped
to ≥ 1, i.e. (max 1 (round N), max 1 (round N))): a positive number N as
the sole constructor argument is dispatched as a clip limit — the stored
configuration is clip-limit N with the default grid (8, 8) — while a
number N in the size argument position (the second argument) yields the
square grid (max 1 (round N), max 1 (round N)); shape dispatch follows
the source order (plain object first, then clip-limit shapes, then size
shapes). -/
theorem New_numeric_dispatch (env : CEnv) (N c : ℚ) (hN : 0 < N) :
    CLAHE.New env [.num (.fin N)] = .ok ⟨N, (8, 8)⟩
    ∧ CLAHE.New env [.num (.fin c), .num (.fin N)]
        = .ok ⟨max 0 c, (max 1 (cRound N), max 1 (cRound N))⟩ := by
  constructor
  · norm_num +decide [CLAHE.New, resolveFirstArg, isObjectV, isArrayV,
      isNumberV, parseClipLimit, cmax0, sanitizeSize]
    exact hN.le
  · norm_num +decide [CLAHE.New, resolveFirstArg, isObjectV, isArrayV,
      isNumberV, parseClipLimit, extractSize, roundToInt, cmax0,
      sanitizeSize, max_one_idem]

/-- Claim C2 witness: the amended statement applied at N = 3, c = 2. -/
theorem New_numeric_dispatch_witness :
    (0 : ℚ) < 3
    ∧ (CLAHE.New envX86 [.num (.fin 3)] = .ok ⟨3, (8, 8)⟩
       ∧ CLAHE.New envX86 [.num (.fin 2), .num (.fin 3)]
           = .ok ⟨max 0 2, (max 1 (cRound 3), max 1 (cRound 3))⟩) :=
  ⟨by norm_num, New_numeric_dispatch envX86 3 2 (by norm_num)⟩

/-- Claim C2 counterexample: with N = 1/4 > 0 in the size argument
position the constructor stores the grid (1, 1), but the claimed value
(round N, round N) is (0, 0). -/
theorem New_second_arg_round_claim_false :
    CLAHE.New envX86 [.num (.fin 2), .num (.fin (1/4))] = .ok ⟨2, (1, 1)⟩
    ∧ (cRound (1/4), cRound (1/4)) ≠ ((1 : Int), (1 : Int)) := by
  constructor
  · norm_num +decide [CLAHE.New, resolveFirstArg, isObjectV, isArrayV,
      isNumberV, parseClipLimit, extractSize, roundToInt, cRound, cmax0,
      sanitizeSize]
  · norm_num [cRound]

/-- Claim C3: constructing with zero arguments yields clip limit 40.0 and
tile grid (8, 8). -/
theorem New_no_args (env : CEnv) : CLAHE.New env [] = .ok ⟨40, (8, 8)⟩ := by
  norm_num [CLAHE.New, resolveFirstArg, cmax0, sanitizeSize]

/-- Claim C8, code behaviour at the failing input: resolving a size from
the object {width: 5} with no "height" field does NOT default the missing
component to 8.  The absent property reads as undefined, ToNumber turns it
into NaN (the FromMaybe default is never consulted because the conversion
succeeds), and static_cast of NaN gives the implementation-defined
nanInt, so the result is (5, max 1 nanInt) — (5, 1) on x86-64 and
AArch64 — never the claimed (5, 8). -/
theorem extractSize_missing_height (env : CEnv) :
    extractSize env (.obj [("width", .num (.fin 5))]) (8, 8)
        = some (5, max 1 env.nanInt) := by
  norm_num +decide [extractSize, hasField, lookupField, getField, toNumber,
    roundToInt, cRound, sanitizeSize]

/-- The configuration invariant of the data model: clip limit ≥ 0 and both
tile-grid components ≥ 1. -/
def ConfigInv (s : CLAHEState) : Prop :=
  0 ≤ s.clipLimit ∧ 1 ≤ s.tilesGridSize.1 ∧ 1 ≤ s.tilesGridSize.2

/-- Claim C4: every configuration produced by the constructor satisfies
the invariant (clip limit ≥ 0, integer grid components ≥ 1), and both
setters preserve it for every input — whether they accept the argument or
reject it and keep the previous configuration. -/
theorem config_invariant :
    (∀ env args s, CLAHE.New env args = .ok s → ConfigInv s)
    ∧ (∀ dconv s v, ConfigInv s →
        ConfigInv (CLAHE.SetClipLimit dconv s v).1)
    ∧ (∀ env s v, ConfigInv s →
        ConfigInv (CLAHE.SetTilesGridSize env s v).1) := by
  refine ⟨?_, ?_, ?_⟩
  · intro env args s h
    unfold CLAHE.New at h
    split at h
    · cases h
    · split at h
      · split at h
        · cases h
          exact ⟨cmax0_nonneg _, sanitizeSize_ge _⟩
        · cases h
      · cases h
        exact ⟨cmax0_nonneg _, sanitizeSize_ge _⟩
  · intro dconv s v hs
    unfold CLAHE.SetClipLimit
    split
    · exact hs
    · exact ⟨cmax0_nonneg _, hs.2⟩
  · intro env s v hs
    unfold CLAHE.SetTilesGridSize
    split
    · exact hs
    · exact ⟨hs.1, sanitizeSize_ge _⟩

/-- Claim C4 witness: the three parts applied at concrete calls — the
zero-argument constructor, a clip-limit setter fed a negative number, and
a grid setter fed the non-positive pair [0, -3]. -/
theorem config_invariant_witness :
    ConfigInv ⟨40, (8, 8)⟩
    ∧ ConfigInv (CLAHE.SetClipLimit (fun w => .ok (toNumber w)) ⟨40, (8, 8)⟩
        (.num (.fin (-5)))).1
    ∧ ConfigInv (CLAHE.SetTilesGridSize envX86 ⟨40, (8, 8)⟩
        (.arr [.num (.fin 0), .num (.fin (-3))])).1 :=
  ⟨config_invariant.1 envX86 [] _ (by
      norm_num [CLAHE.New, resolveFirstArg, cmax0, sanitizeSize]),
   config_invariant.2.1 _ _ _ (by norm_num [ConfigInv]),
   config_invariant.2.2 _ _ _ (by norm_num [ConfigInv])⟩

/-- Claim C5 (amended: setTilesGridSize uses a third fixed message,
"Unable to parse tilesGridSize", with an extra "s"): every ArgumentError
raised by constructor argument parsing carries one of the two fixed
messages "Invalid arguments for CLAHE constructor" and "Unable to parse
tileGridSize", and every ArgumentError raised by setTilesGridSize carries
the fixed message "Unable to parse tilesGridSize". -/
theorem argument_error_messages :
    (∀ env args e, CLAHE.New env args = .error e →
        e = .argError "Invalid arguments for CLAHE constructor"
        ∨ e = .argError "Unable to parse tileGridSize")
    ∧ (∀ env s v e, (CLAHE.SetTilesGridSize env s v).2 = .error e →
        e = .argError "Unable to parse tilesGridSize") := by
  constructor
  · intro env args e h
    unfold CLAHE.New at h
    split at h
    · cases h
      exact Or.inl rfl
    · split at h
      · split at h
        · cases h
        · cases h
          exact Or.inr rfl
      · cases h
  · intro env s v e h
    unfold CLAHE.SetTilesGridSize at h
    split at h
    · cases h
      rfl
    · cases h

/-- Claim C5 witness: both parts applied at concrete failing calls. -/
theorem argument_error_messages_witness :
    (CLAHE.New envX86 [.str "bad"]
        = .error (.argError "Invalid arguments for CLAHE constructor")
     ∧ (CErr.argError "Invalid arguments for CLAHE constructor"
          = .argError "Invalid arguments for CLAHE constructor"
        ∨ CErr.argError "Invalid arguments for CLAHE constructor"
          = .argError "Unable to parse tileGridSize"))
    ∧ ((CLAHE.SetTilesGridSize envX86 ⟨40, (8, 8)⟩ .undefined).2
        = .error (.argError "Unable to parse tilesGridSize")
       ∧ CErr.argError "Unable to parse tilesGridSize"
          = .argError "Unable to parse tilesGridSize") := by
  have h1 : CLAHE.New envX86 [.str "bad"]
      = .error (.argError "Invalid arguments for CLAHE constructor") := by
    norm_num +decide [CLAHE.New, resolveFirstArg, isObjectV, isArrayV,
      isNumberV, parseClipLimit, extractSize]
  have h2 : (CLAHE.SetTilesGridSize envX86 ⟨40, (8, 8)⟩ .undefined).2
      = .error (.argError "Unable to parse tilesGridSize") := by
    simp [CLAHE.SetTilesGridSize, extractSize]
  exact ⟨⟨h1, argument_error_messages.1 envX86 [.str "bad"] _ h1⟩,
         ⟨h2, argument_error_messages.2 envX86 ⟨40, (8, 8)⟩ .undefined _ h2⟩⟩

/-- Claim C5 counterexample: setTilesGridSize rejecting its argument
raises the message "Unable to parse tilesGridSize", which is neither of
the claim's two messages. -/
theorem setTilesGridSize_message_differs :
    CLAHE.SetTilesGridSize envX86 ⟨40, (8, 8)⟩ .undefined
        = (⟨40, (8, 8)⟩, .error (.argError "Unable to parse tilesGridSize"))
    ∧ "Unable to parse tilesGridSize" ≠ "Unable to parse tileGridSize"
    ∧ "Unable to parse tilesGridSize"
        ≠ "Invalid arguments for CLAHE constructor" := by
  refine ⟨by simp [CLAHE.SetTilesGridSize, extractSize], by decide, by decide⟩

/-- Claim C6: in the single-configuration-object constructor form, an
object whose tile size cannot be resolved silently keeps the default grid
(8, 8) (construction succeeds), whereas a second constructor argument that
cannot be resolved as a size raises ArgumentError "Unable to parse
tileGridSize". -/
theorem New_object_size_policy :
    (∀ env fields, extractSize env (.obj fields) (8, 8) = none →
        CLAHE.New env [.obj fields] = .ok ⟨cmax0 (ctorClip fields), (8, 8)⟩)
    ∧ (∀ env a0 a1 c t, resolveFirstArg env [a0, a1] = some (c, t) →
        extractSize env a1 t = none →
        CLAHE.New env [a0, a1]
          = .error (.argError "Unable to parse tileGridSize")) := by
  constructor
  · intro env fields h
    norm_num [CLAHE.New, resolveFirstArg, isObjectV, isArrayV, isNumberV,
      objFieldsOf, h, sanitizeSize]
  · intro env a0 a1 c t hr hx
    unfold CLAHE.New
    rw [hr]
    norm_num [hx]

/-- Claim C6 witness: both parts applied concretely — the object
{clipLimit: 5/2} has no resolvable size and construction keeps grid
(8, 8); the unresolvable second argument "bad" after a numeric clip limit
raises the tileGridSize error. -/
theorem New_object_size_policy_witness :
    (extractSize envX86 (.obj [("clipLimit", .num (.fin (5/2)))]) (8, 8) = none
     ∧ CLAHE.New envX86 [.obj [("clipLimit", .num (.fin (5/2)))]]
        = .ok ⟨cmax0 (ctorClip [("clipLimit", .num (.fin (5/2)))]), (8, 8)⟩)
    ∧ (resolveFirstArg envX86 [.num (.fin 2), .str "bad"]
        = some (.fin 2, (8, 8))
       ∧ CLAHE.New envX86 [.num (.fin 2), .str "bad"]
          = .error (.argError "Unable to parse tileGridSize")) := by
  have h1 : extractSize envX86
      (.obj [("clipLimit", .num (.fin (5/2)))]) (8, 8) = none := by
    norm_num +decide [extractSize, hasField, lookupField]
  have h2 : resolveFirstArg envX86 [.num (.fin 2), .str "bad"]
      = some (.fin 2, (8, 8)) := by
    norm_num [resolveFirstArg, isObjectV, isArrayV, isNumberV, parseClipLimit]
  have h3 : extractSize envX86 (.str "bad") (8, 8) = none := by
    simp [extractSize]
  exact ⟨⟨h1, New_object_size_policy.1 envX86 _ h1⟩,
         ⟨h2, New_object_size_policy.2 envX86 _ _ _ _ h2 h3⟩⟩

/-- Claim C7: a setClipLimit or setTilesGridSize call whose argument does
not parse leaves the stored configuration exactly as it was, and a
constructor call that reports an error constructs no object. -/
theorem failure_preserves_configuration :
    (∀ dconv s v e, (CLAHE.SetClipLimit dconv s v).2 = .error e →
        (CLAHE.SetClipLimit dconv s v).1 = s)
    ∧ (∀ env s v e, (CLAHE.SetTilesGridSize env s v).2 = .error e →
        (CLAHE.SetTilesGridSize env s v).1 = s)
    ∧ (∀ env args e, CLAHE.New env args = .error e →
        ∀ s, CLAHE.New env args ≠ .ok s) := by
  refine ⟨?_, ?_, ?_⟩
  · intro dconv s v e h
    unfold CLAHE.SetClipLimit at h ⊢
    split at h
    · rfl
    · cases h
  · intro env s v e h
    unfold CLAHE.SetTilesGridSize at h ⊢
    split at h
    · rfl
    · cases h
  · intro env args e h s hok
    rw [h] at hok
    cases hok

/-- Claim C7 witness: the three parts applied at concrete failing calls
(a converter rejection, an unparsable grid argument, a string constructor
argument). -/
theorem failure_preserves_configuration_witness :
    ((CLAHE.SetClipLimit (fun _ => .error .converterError) ⟨40, (8, 8)⟩
        .undefined).2 = .error .converterError
     ∧ (CLAHE.SetClipLimit (fun _ => .error .converterError) ⟨40, (8, 8)⟩
        .undefined).1 = ⟨40, (8, 8)⟩)
    ∧ ((CLAHE.SetTilesGridSize envX86 ⟨40, (8, 8)⟩ .undefined).2
        = .error (.argError "Unable to parse tilesGridSize")
       ∧ (CLAHE.SetTilesGridSize envX86 ⟨40, (8, 8)⟩ .undefined).1
        = ⟨40, (8, 8)⟩)
    ∧ (CLAHE.New envX86 [.str "bad"]
        = .error (.argError "Invalid arguments for CLAHE constructor")
       ∧ CLAHE.New envX86 [.str "bad"] ≠ .ok ⟨40, (8, 8)⟩) := by
  have h1 : (CLAHE.SetClipLimit (fun _ => .error .converterError)
      ⟨40, (8, 8)⟩ .undefined).2 = .error .converterError := by
    simp [CLAHE.SetClipLimit]
  have h2 : (CLAHE.SetTilesGridSize envX86 ⟨40, (8, 8)⟩ .undefined).2
      = .error (.argError "Unable to parse tilesGridSize") := by
    simp [CLAHE.SetTilesGridSize, extractSize]
  have h3 : CLAHE.New envX86 [.str "bad"]
      = .error (.argError "Invalid arguments for CLAHE constructor") := by
    norm_num +decide [CLAHE.New, resolveFirstArg, isObjectV, isArrayV,
      isNumberV, parseClipLimit, extractSize]
  exact ⟨⟨h1, failure_preserves_configuration.1 _ _ _ _ h1⟩,
         ⟨h2, failure_preserves_configuration.2.1 _ _ _ _ h2⟩,
         ⟨h3, failure_preserves_configuration.2.2 _ _ _ h3 _⟩⟩

/-- Claim C9: every successful setClipLimit or setTilesGridSize call, and
every collectGarbage call, returns the receiver object itself (method
chaining). -/
theorem methods_return_receiver :
    (∀ dconv s v r, (CLAHE.SetClipLimit dconv s v).2 = .ok r →
        r = .receiver)
    ∧ (∀ env s v r, (CLAHE.SetTilesGridSize env s v).2 = .ok r →
        r = .receiver)
    ∧ (∀ s, (CLAHE.CollectGarbage s).2 = .ok .receiver) := by
  refine ⟨?_, ?_, ?_⟩
  · intro dconv s v r h
    unfold CLAHE.SetClipLimit at h
    split at h
    · cases h
    · cases h
      rfl
  · intro env s v r h
    unfold CLAHE.SetTilesGridSize at h
    split at h
    · cases h
    · cases h
      rfl
  · intro s
    rfl

/-- Claim C9 witness: the receiver comes back from a concrete successful
setClipLimit, setTilesGridSize and collectGarbage call. -/
theorem methods_return_receiver_witness :
    ((CLAHE.SetClipLimit (fun w => .ok (toNumber w)) ⟨40, (8, 8)⟩
        (.num (.fin 3))).2 = .ok .receiver
     ∧ RetVal.receiver = RetVal.receiver)
    ∧ ((CLAHE.SetTilesGridSize envX86 ⟨40, (8, 8)⟩
        (.arr [.num (.fin 4), .num (.fin 4)])).2 = .ok .receiver
       ∧ RetVal.receiver = RetVal.receiver)
    ∧ (CLAHE.CollectGarbage ⟨40, (8, 8)⟩).2 = .ok .receiver := by
  have h1 : (CLAHE.SetClipLimit (fun w => .ok (toNumber w)) ⟨40, (8, 8)⟩
      (.num (.fin 3))).2 = .ok .receiver := by
    simp [CLAHE.SetClipLimit]
  have h2 : (CLAHE.SetTilesGridSize envX86 ⟨40, (8, 8)⟩
      (.arr [.num (.fin 4), .num (.fin 4)])).2 = .ok .receiver := by
    norm_num [CLAHE.SetTilesGridSize, extractSize]
  exact ⟨⟨h1, methods_return_receiver.1 _ _ _ _ h1⟩,
         ⟨h2, methods_return_receiver.2.1 _ _ _ _ h2⟩,
         methods_return_receiver.2.2 ⟨40, (8, 8)⟩⟩

/-- Claim C10: apply with an explicitly passed undefined or null
destination behaves exactly like apply without a destination — the
destination argument is never handed to the image converter (the equality
holds for every converter, including ones that would reject it) and the
returned output buffer is freshly allocated. -/
theorem Apply_nullish_destination {α : Type} (conv : JSValue → Except CErr α)
    (run : α → α) (src : JSValue) :
    CLAHE.Apply conv run [src, .undefined] = CLAHE.Apply conv run [src]
    ∧ CLAHE.Apply conv run [src, .null] = CLAHE.Apply conv run [src]
    ∧ CLAHE.Apply conv run [src]
        = (conv src).map (fun m => ⟨run m, true⟩) := by
  cases hc : conv src <;>
    simp [CLAHE.Apply, isUndefinedOrNull, hc, Except.map]
